import Mathlib

/-!
Verification of the loan-risk-assessment dashboard (`src/dashapp.py`)
against its natural-language specification.

The Python program reads loan rows from a SQLite table `loans50k`, and the
callback `update_all_graphs` turns one selected credit grade into five chart
specifications.  We shallowly embed the data-relevant behaviour of that
program: the database is a list of `LoanRow`s, the SQL queries become list
operations, the pandas transforms (`to_datetime(errors="coerce")`,
`dropna`, `groupby(...).sum()`, `groupby(...).value_counts().unstack()`)
become explicit list pipelines, and each plotly figure becomes a `Fig`
value carrying exactly the data the figure plots.
-/

namespace Dashapp

/-- One row of the `loans50k` table, with the columns the dashboard consumes
(`dashapp.py` only ever projects subsets of these).  The numeric columns
`loan_amnt` and `int_rate` are modelled as integers: no claim depends on
fractional parts. -/
structure LoanRow where
  grade : String
  loan_amnt : Int
  int_rate : Int
  loan_status : String
  purpose : String
  issue_d : String
  earliest_cr_line : String
deriving DecidableEq

/-- The fixed loan-status → display-colour map of `dashapp.py` lines 7-17. -/
def loan_status_colors : List (String × String) :=
  [("Fully Paid", "blue"),
   ("Charged Off", "red"),
   ("Late (31-120 days)", "orange"),
   ("In Grace Period", "yellow"),
   ("Late (16-30 days)", "purple"),
   ("Default", "black"),
   ("Does not meet the credit policy. Status:Fully Paid", "magenta"),
   ("Does not meet the credit policy. Status:Charged Off", "green"),
   ("Current", "lightblue")]

/-- Split a character list at each dash, as a helper for date parsing. -/
def splitOnDash : List Char → List (List Char)
  | [] => [[]]
  | c :: cs =>
    if c = '-' then [] :: splitOnDash cs
    else
      match splitOnDash cs with
      | [] => [[c]]
      | g :: gs => (c :: g) :: gs

/-- Numeric value of a list of decimal digit characters. -/
def digitsToNat (cs : List Char) : Nat :=
  cs.foldl (fun n c => 10 * n + (c.toNat - '0'.toNat)) 0

/-- Models `pd.to_datetime(col, errors="coerce")` followed by `.dt.year` on
the ISO-format date strings the data uses (the source comments note the
dates look like "2013-06-01"): returns the calendar year when the string is
a well-formed `YYYY-MM-DD` date, and `none` (pandas `NaT`) otherwise. -/
def parseDateYear (s : String) : Option Nat :=
  match splitOnDash s.data with
  | [ys, ms, ds] =>
    if ys.length = 4 && ys.all Char.isDigit
        && ms.length = 2 && ms.all Char.isDigit
        && ds.length = 2 && ds.all Char.isDigit then
      let m := digitsToNat ms
      let d := digitsToNat ds
      if 1 ≤ m && m ≤ 12 && 1 ≤ d && d ≤ 31 then some (digitsToNat ys) else none
    else none
  | _ => none

/-- Models `SELECT DISTINCT` over a projected column in SQLite's natural
(scan) order: each value is kept at its first occurrence. -/
def sqlDistinct : List String → List String
  | [] => []
  | x :: xs => x :: (sqlDistinct xs).filter (fun y => y ≠ x)

/-- Models `SELECT <cols> FROM loans50k WHERE grade = g` with the equality
semantics the query is intended to have (the projection is elided: every
row keeps all of its columns). -/
def fetchRows (db : List LoanRow) (g : String) : List LoanRow :=
  db.filter (fun r => r.grade = g)

/-- The dropdown-options callback `load_grades` (dashapp.py lines 45-50):
a distinct-grade query, each grade mapped to a (label, value) pair. -/
def load_grades (db : List LoanRow) : List (String × String) :=
  (sqlDistinct (db.map (·.grade))).map (fun g => (g, g))

/-- Insert a value into an (ascending) list, keeping an existing copy. -/
def insertSorted (x : Nat) : List Nat → List Nat
  | [] => [x]
  | y :: ys =>
    if x < y then x :: y :: ys
    else if x = y then y :: ys
    else y :: insertSorted x ys

/-- The distinct keys of a pandas `groupby`, in ascending order (pandas
sorts group keys by default). -/
def sortDedup : List Nat → List Nat
  | [] => []
  | x :: xs =>
    let r := sortDedup xs
    if x ∈ r then r else insertSorted x r

/-- The (year, loan_amnt) pairs surviving date parsing of `issue_d`:
models `to_datetime(..., errors="coerce")` plus `dropna` on the fetched
issuance frame (dashapp.py lines 117-119). -/
def issuePairs (rows : List LoanRow) : List (Nat × Int) :=
  rows.filterMap (fun r => (parseDateYear r.issue_d).map (fun y => (y, r.loan_amnt)))

/-- Models `groupby(year)["loan_amnt"].sum()` (dashapp.py line 122): one
point per distinct year, carrying the sum of the amounts of that year. -/
def yearSumPoints (ps : List (Nat × Int)) : List (Nat × Int) :=
  (sortDedup (ps.map (·.1))).map
    (fun y => (y, ((ps.filter (fun p => p.1 = y)).map Prod.snd).sum))

/-- The (year, loan_status) pairs surviving date parsing of
`earliest_cr_line` (dashapp.py lines 141-143). -/
def creditPairs (rows : List LoanRow) : List (Nat × String) :=
  rows.filterMap (fun r => (parseDateYear r.earliest_cr_line).map (fun y => (y, r.loan_status)))

/-- Number of parsed rows of a given year with a given status: one cell of
the `value_counts()` table of dashapp.py line 146. -/
def statusYearCount (ps : List (Nat × String)) (y : Nat) (s : String) : Nat :=
  (ps.filter (fun p => p.1 = y ∧ p.2 = s)).length

/-- The "Charged Off" column of the credit-trend frame of dashapp.py lines
146-149, as (year, value) pairs.  `groupby(year)["loan_status"].value_counts()`
only lists (year, status) combinations that occur, so `unstack()` fills a
year having no row of some status with NaN (here `none`); the source then
adds an all-zero "Charged Off" column only when that column is absent
altogether, i.e. when no parsed row has status "Charged Off". -/
def chargedOffSeries (ps : List (Nat × String)) : List (Nat × Option Nat) :=
  (sortDedup (ps.map (·.1))).map (fun y =>
    (y, if ps.any (fun p => p.2 = "Charged Off") then
          (if statusYearCount ps y "Charged Off" = 0 then none
           else some (statusYearCount ps y "Charged Off"))
        else some 0))

/-- A chart specification: the chart type together with exactly the data
the corresponding `plotly.express` call plots. -/
inductive Fig where
  | histogram (data : List (Int × String)) (colorMap : List (String × String)) (title : String)
  | densityHeatmap (data : List (Int × Int)) (nbinsx nbinsy : Nat) (title : String)
  | pie (names : List String) (title : String)
  | line (points : List (Nat × Int)) (title : String)
  | lineWithGaps (points : List (Nat × Option Nat)) (title : String)
  | emptyLine (title : String)
deriving DecidableEq

/-- Graph 1 (dashapp.py lines 75-85): histogram of loan_amnt coloured by
loan_status with the fixed colour map. -/
def figDefault (rows : List LoanRow) (g : String) : Fig :=
  Fig.histogram (rows.map (fun r => (r.loan_amnt, r.loan_status))) loan_status_colors
    ("Default Rate by Loan Amount for Grade " ++ g)

/-- Graph 2 (dashapp.py lines 88-97): 30×30 density heatmap of loan_amnt
against int_rate. -/
def figLoanInt (rows : List LoanRow) (g : String) : Fig :=
  Fig.densityHeatmap (rows.map (fun r => (r.loan_amnt, r.int_rate))) 30 30
    ("Loan Amount vs. Interest Rate (Density) - Grade " ++ g)

/-- Graph 3 (dashapp.py lines 100-108): pie over the purpose column. -/
def figPurpose (rows : List LoanRow) (g : String) : Fig :=
  Fig.pie (rows.map (·.purpose)) ("Loan Purpose Distribution for Grade " ++ g)

/-- Graph 4 (dashapp.py lines 111-132): issuance over time.  After parsing
and dropping unparsable rows, an empty frame yields the "(No Data)"
placeholder; otherwise a line over the year-grouped amount sums. -/
def figTimeSeries (rows : List LoanRow) : Fig :=
  if (issuePairs rows).isEmpty then
    Fig.emptyLine "Total Loan Issuance Over Time (No Data)"
  else
    Fig.line (yearSumPoints (issuePairs rows)) "Total Loan Issuance Over Time"

/-- Graph 5 (dashapp.py lines 135-156): charged-off counts by year of
earliest_cr_line, with the same empty-frame placeholder. -/
def figCreditHistory (rows : List LoanRow) : Fig :=
  if (creditPairs rows).isEmpty then
    Fig.emptyLine "Loan Defaults vs. Borrower Credit History (No Data)"
  else
    Fig.lineWithGaps (chargedOffSeries (creditPairs rows))
      "Loan Defaults vs. Borrower Credit History"

/-- The five figures produced for a resolved grade (dashapp.py lines 72-160). -/
def makeFigs (db : List LoanRow) (g : String) : Fig × Fig × Fig × Fig × Fig :=
  (figDefault (fetchRows db g) g,
   figLoanInt (fetchRows db g) g,
   figPurpose (fetchRows db g) g,
   figTimeSeries (fetchRows db g),
   figCreditHistory (fetchRows db g))

/-- The callback `update_all_graphs` (dashapp.py lines 63-160).  With no
grade selected it resolves the default grade from
`SELECT DISTINCT grade FROM loans50k LIMIT 1` and `.iloc[0]`; `.iloc[0]`
on an empty result raises an IndexError, modelled as `none`. -/
def update_all_graphs (db : List LoanRow) (selected_grade : Option String) :
    Option (Fig × Fig × Fig × Fig × Fig) :=
  match selected_grade with
  | some g => some (makeFigs db g)
  | none =>
    match sqlDistinct (db.map (·.grade)) with
    | [] => none
    | g :: _ => some (makeFigs db g)

/-- The query text that dashapp.py builds by f-string interpolation, e.g.
lines 75-78: `SELECT <cols> FROM loans50k WHERE grade = '<g>';` with the
raw grade string spliced between the quotes (surrounding whitespace of the
triple-quoted literal elided). -/
def buildGradeQuery (cols g : String) : String :=
  "SELECT " ++ cols ++ " FROM loans50k WHERE grade = '" ++ g ++ "';"

/-- Consume an exact expected character sequence from the front of a list,
returning the remainder, or `none` when the input does not start with it. -/
def dropExact : List Char → List Char → Option (List Char)
  | [], rest => some rest
  | _ :: _, [] => none
  | p :: ps, c :: cs => if c = p then dropExact ps cs else none

/-- Read a SQL single-quoted literal body and require the query to end
right after it: the characters before the first quote are the literal the
SQL engine actually parses, and anything between the closing quote and the
final `;` would be extra SQL structure, so the scan yields `none` there. -/
def takeLit : List Char → Option (List Char)
  | [] => none
  | c :: cs =>
    if c = '\'' then (if cs = [';'] then some [] else none)
    else (takeLit cs).map (c :: ·)

/-- Parse a query string as a plain grade-equality filter
`SELECT <cols> FROM loans50k WHERE grade = '<lit>';` and return the literal
value it filters on; `none` when the query has any other structure. -/
def queryGradeLiteral (cols q : String) : Option String :=
  match dropExact ("SELECT " ++ cols ++ " FROM loans50k WHERE grade = '").data q.data with
  | none => none
  | some rest => (takeLit rest).map (fun l => String.mk l)

/-- The point list a line figure plots: the grouped points of a `line`
figure, and no points for the "(No Data)" placeholder or any non-line
figure. -/
def linePoints : Fig → List (Nat × Int)
  | Fig.line ps _ => ps
  | _ => []

/-- Spec-side count for the credit-history chart: the number of rows with
`loan_status = "Charged Off"` whose `earliest_cr_line` parses to the given
year. -/
def chargedOffRowCount (rows : List LoanRow) (y : Nat) : Nat :=
  (rows.filter (fun r =>
    parseDateYear r.earliest_cr_line = some y ∧ r.loan_status = "Charged Off")).length

/-- The three grade-"B" rows of the spec's issuance example (columns the
example leaves unspecified are filled arbitrarily). -/
def exampleDb : List LoanRow :=
  [⟨"B", 1000, 11, "Fully Paid", "car", "2013-06-01", "1999-05-01"⟩,
   ⟨"B", 500, 12, "Fully Paid", "house", "2013-09-01", "1998-04-01"⟩,
   ⟨"B", 2000, 13, "Charged Off", "car", "2014-01-01", "2000-01-01"⟩]

/-- Two grade-"B" rows whose `earliest_cr_line` years are 2000 (a
"Charged Off" row) and 2001 (a "Fully Paid" row): year 2001 appears in the
grouping but has zero charged-off rows. -/
def mixedStatusDb : List LoanRow :=
  [⟨"B", 1000, 11, "Charged Off", "car", "2013-06-01", "2000-01-01"⟩,
   ⟨"B", 500, 12, "Fully Paid", "house", "2013-09-01", "2001-01-01"⟩]

/-- A row on which both date columns fail to parse. -/
def unparsableRow : LoanRow :=
  ⟨"B", 700, 9, "Current", "car", "not-a-date", "also-not-a-date"⟩

/-- A grade string carrying SQL metacharacters, built character by
character: it reads `B' OR '1'='1`. -/
def injectionGrade : String :=
  String.mk ['B', '\'', ' ', 'O', 'R', ' ', '\'', '1', '\'', '=', '\'', '1']

/-! Helper lemmas about the embedded pipeline. -/

theorem mem_insertSorted {a : Nat} {l : List Nat} :
    ∀ x, x ∈ insertSorted a l ↔ x = a ∨ x ∈ l := by
  induction l with
  | nil => intro x; simp [insertSorted]
  | cons y ys ih =>
    intro x
    simp only [insertSorted]
    split
    · simp [List.mem_cons]
    · split
      · next h1 h2 =>
        subst h2
        simp only [List.mem_cons]
        constructor
        · exact Or.inr
        · rintro (rfl | h) <;> simp_all
      · simp only [List.mem_cons, ih x]
        tauto

theorem nodup_insertSorted {a : Nat} {l : List Nat} (hn : l.Nodup) (ha : a ∉ l) :
    (insertSorted a l).Nodup := by
  induction l with
  | nil => simp [insertSorted]
  | cons y ys ih =>
    have hay : a ≠ y := fun h => ha (h ▸ List.mem_cons_self _ _)
    have ha' : a ∉ ys := fun h => ha (List.mem_cons_of_mem _ h)
    rcases List.nodup_cons.mp hn with ⟨hyys, hys⟩
    by_cases hlt : a < y
    · simp only [insertSorted, if_pos hlt]
      exact List.nodup_cons.mpr ⟨ha, hn⟩
    · simp only [insertSorted, if_neg hlt, if_neg hay]
      refine List.nodup_cons.mpr ⟨?_, ih hys ha'⟩
      intro hy
      rcases (mem_insertSorted y).mp hy with h | h
      · exact hay h.symm
      · exact hyys h

theorem mem_sortDedup {l : List Nat} : ∀ x, x ∈ sortDedup l ↔ x ∈ l := by
  induction l with
  | nil => intro x; simp [sortDedup]
  | cons y ys ih =>
    intro x
    simp only [sortDedup]
    split
    · next h =>
      rw [ih x, List.mem_cons]
      constructor
      · exact Or.inr
      · rintro (rfl | hx)
        · exact (ih x).mp h
        · exact hx
    · rw [mem_insertSorted x, ih x, List.mem_cons]

theorem nodup_sortDedup (l : List Nat) : (sortDedup l).Nodup := by
  induction l with
  | nil => simp [sortDedup]
  | cons y ys ih =>
    simp only [sortDedup]
    split
    · exact ih
    · next h => exact nodup_insertSorted ih h

theorem mem_sqlDistinct (l : List String) : ∀ x, x ∈ sqlDistinct l ↔ x ∈ l := by
  induction l with
  | nil => intro x; simp [sqlDistinct]
  | cons y ys ih =>
    intro x
    simp only [sqlDistinct, List.mem_cons, List.mem_filter, ih x, decide_eq_true_eq]
    by_cases hx : x = y <;> tauto

theorem nodup_sqlDistinct (l : List String) : (sqlDistinct l).Nodup := by
  induction l with
  | nil => simp [sqlDistinct]
  | cons y ys ih =>
    simp only [sqlDistinct]
    refine List.nodup_cons.mpr ⟨?_, ih.filter _⟩
    intro hy
    rw [List.mem_filter] at hy
    simp at hy

theorem sum_map_add (Y : List Nat) (f g : Nat → Int) :
    (Y.map (fun y => f y + g y)).sum = (Y.map f).sum + (Y.map g).sum := by
  induction Y with
  | nil => simp
  | cons y ys ih => simp only [List.map_cons, List.sum_cons, ih]; ring

theorem sum_if_eq_zero {a : Nat} {Y : List Nat} (c : Int) (ha : a ∉ Y) :
    (Y.map (fun y => if a = y then c else 0)).sum = 0 := by
  induction Y with
  | nil => simp
  | cons y ys ih =>
    have hay : a ≠ y := fun h => ha (h ▸ List.mem_cons_self _ _)
    have ha' : a ∉ ys := fun h => ha (List.mem_cons_of_mem _ h)
    simp [hay, ih ha']

theorem sum_if_eq {a : Nat} {Y : List Nat} (c : Int) (hN : Y.Nodup) (ha : a ∈ Y) :
    (Y.map (fun y => if a = y then c else 0)).sum = c := by
  induction Y with
  | nil => cases ha
  | cons y ys ih =>
    rcases List.nodup_cons.mp hN with ⟨hny, hnd⟩
    rcases List.mem_cons.mp ha with rfl | hm
    · simp [sum_if_eq_zero c hny]
    · have hay : a ≠ y := by rintro rfl; exact hny hm
      simp [hay, ih hnd hm]

theorem partition_sum (Y : List Nat) (ps : List (Nat × Int))
    (hN : Y.Nodup) (hc : ∀ p ∈ ps, p.1 ∈ Y) :
    (Y.map (fun y => ((ps.filter (fun p => p.1 = y)).map Prod.snd).sum)).sum
      = (ps.map Prod.snd).sum := by
  induction ps with
  | nil => simp
  | cons p ps' ih =>
    have hp : p.1 ∈ Y := hc p (List.mem_cons_self _ _)
    have hc' : ∀ q ∈ ps', q.1 ∈ Y := fun q hq => hc q (List.mem_cons_of_mem _ hq)
    have hstep : (fun y => ((List.filter (fun q => q.1 = y) (p :: ps')).map Prod.snd).sum)
        = fun y => (if p.1 = y then p.2 else 0)
            + ((List.filter (fun q => q.1 = y) ps').map Prod.snd).sum := by
      funext y
      by_cases h : p.1 = y
      · simp [List.filter_cons, h]
      · simp [List.filter_cons, h]
    rw [hstep, sum_map_add, sum_if_eq p.2 hN hp, ih hc']
    simp

theorem mem_map_pair {β : Type} {Y : List Nat} {S : Nat → β} {y : Nat} {v : β} :
    (y, v) ∈ Y.map (fun z => (z, S z)) ↔ y ∈ Y ∧ v = S y := by
  simp only [List.mem_map, Prod.mk.injEq]
  constructor
  · rintro ⟨z, hz, rfl, rfl⟩
    exact ⟨hz, rfl⟩
  · rintro ⟨hy, rfl⟩
    exact ⟨y, hy, rfl, rfl⟩

theorem yearSumPoints_total (ps : List (Nat × Int)) :
    ((yearSumPoints ps).map Prod.snd).sum = (ps.map Prod.snd).sum := by
  unfold yearSumPoints
  rw [List.map_map]
  have hcomp : (Prod.snd ∘ fun y => (y, ((ps.filter (fun p => p.1 = y)).map Prod.snd).sum))
      = fun y => ((ps.filter (fun p => p.1 = y)).map Prod.snd).sum := rfl
  rw [hcomp]
  exact partition_sum _ ps (nodup_sortDedup _)
    (fun p hp => (mem_sortDedup p.1).mpr (List.mem_map_of_mem _ hp))

theorem issuePairs_snd_sum (rows : List LoanRow) :
    ((issuePairs rows).map Prod.snd).sum
      = ((rows.filter (fun r => (parseDateYear r.issue_d).isSome)).map (·.loan_amnt)).sum := by
  induction rows with
  | nil => rfl
  | cons r rs ih =>
    cases h : parseDateYear r.issue_d with
    | none => simpa [issuePairs, List.filterMap_cons, List.filter_cons, h] using ih
    | some y => simpa [issuePairs, List.filterMap_cons, List.filter_cons, h] using ih

theorem issuePairs_filter_year (rows : List LoanRow) (y : Nat) :
    ((issuePairs rows).filter (fun p => p.1 = y)).map Prod.snd
      = (rows.filter (fun r => parseDateYear r.issue_d = some y)).map (·.loan_amnt) := by
  induction rows with
  | nil => rfl
  | cons r rs ih =>
    cases h : parseDateYear r.issue_d with
    | none => simpa [issuePairs, List.filterMap_cons, List.filter_cons, h] using ih
    | some y' =>
      by_cases hy : y' = y
      · subst hy
        simpa [issuePairs, List.filterMap_cons, List.filter_cons, h] using ih
      · simpa [issuePairs, List.filterMap_cons, List.filter_cons, h, hy] using ih

theorem mem_issueYears (rows : List LoanRow) (y : Nat) :
    y ∈ (issuePairs rows).map Prod.fst ↔ ∃ r ∈ rows, parseDateYear r.issue_d = some y := by
  induction rows with
  | nil => simp [issuePairs]
  | cons r rs ih =>
    cases h : parseDateYear r.issue_d with
    | none =>
      rw [show issuePairs (r :: rs) = issuePairs rs by
        simp [issuePairs, List.filterMap_cons, h]]
      rw [ih]
      constructor
      · rintro ⟨r', hr', hp⟩
        exact ⟨r', List.mem_cons_of_mem _ hr', hp⟩
      · rintro ⟨r', hr', hp⟩
        rcases List.mem_cons.mp hr' with rfl | hm
        · rw [h] at hp; cases hp
        · exact ⟨r', hm, hp⟩
    | some y' =>
      rw [show issuePairs (r :: rs) = (y', r.loan_amnt) :: issuePairs rs by
        simp [issuePairs, List.filterMap_cons, h]]
      simp only [List.map_cons, List.mem_cons, ih]
      constructor
      · rintro (rfl | ⟨r', hr', hp⟩)
        · exact ⟨r, Or.inl rfl, h⟩
        · exact ⟨r', Or.inr hr', hp⟩
      · rintro ⟨r', rfl | hm, hp⟩
        · rw [h] at hp
          exact Or.inl (Option.some.inj hp).symm
        · exact Or.inr ⟨r', hm, hp⟩

theorem statusYearCount_rows (rows : List LoanRow) (y : Nat) (s : String) :
    statusYearCount (creditPairs rows) y s
      = (rows.filter (fun r =>
          parseDateYear r.earliest_cr_line = some y ∧ r.loan_status = s)).length := by
  induction rows with
  | nil => rfl
  | cons r rs ih =>
    cases h : parseDateYear r.earliest_cr_line with
    | none =>
      simpa [creditPairs, statusYearCount, List.filterMap_cons, List.filter_cons, h]
        using ih
    | some y' =>
      by_cases h1 : y' = y
      · subst h1
        by_cases h2 : r.loan_status = s <;>
          simpa [creditPairs, statusYearCount, List.filterMap_cons, List.filter_cons, h, h2]
            using ih
      · simpa [creditPairs, statusYearCount, List.filterMap_cons, List.filter_cons, h, h1]
          using ih

theorem any_creditPairs_status (rows : List LoanRow) (s : String) :
    (creditPairs rows).any (fun p => p.2 = s)
      = rows.any (fun r => (parseDateYear r.earliest_cr_line).isSome && r.loan_status = s) := by
  induction rows with
  | nil => rfl
  | cons r rs ih =>
    cases h : parseDateYear r.earliest_cr_line with
    | none =>
      rw [show creditPairs (r :: rs) = creditPairs rs by
        simp [creditPairs, List.filterMap_cons, h]]
      rw [ih]
      simp [List.any_cons, h]
    | some y' =>
      rw [show creditPairs (r :: rs) = (y', r.loan_status) :: creditPairs rs by
        simp [creditPairs, List.filterMap_cons, h]]
      simp only [List.any_cons, ih]
      simp [h]

theorem mem_creditYears (rows : List LoanRow) (y : Nat) :
    y ∈ (creditPairs rows).map Prod.fst
      ↔ ∃ r ∈ rows, parseDateYear r.earliest_cr_line = some y := by
  induction rows with
  | nil => simp [creditPairs]
  | cons r rs ih =>
    cases h : parseDateYear r.earliest_cr_line with
    | none =>
      rw [show creditPairs (r :: rs) = creditPairs rs by
        simp [creditPairs, List.filterMap_cons, h]]
      rw [ih]
      constructor
      · rintro ⟨r', hr', hp⟩
        exact ⟨r', List.mem_cons_of_mem _ hr', hp⟩
      · rintro ⟨r', hr', hp⟩
        rcases List.mem_cons.mp hr' with rfl | hm
        · rw [h] at hp; cases hp
        · exact ⟨r', hm, hp⟩
    | some y' =>
      rw [show creditPairs (r :: rs) = (y', r.loan_status) :: creditPairs rs by
        simp [creditPairs, List.filterMap_cons, h]]
      simp only [List.map_cons, List.mem_cons, ih]
      constructor
      · rintro (rfl | ⟨r', hr', hp⟩)
        · exact ⟨r, Or.inl rfl, h⟩
        · exact ⟨r', Or.inr hr', hp⟩
      · rintro ⟨r', rfl | hm, hp⟩
        · rw [h] at hp
          exact Or.inl (Option.some.inj hp).symm
        · exact Or.inr ⟨r', hm, hp⟩

theorem any_of_statusYearCount_ne_zero {ps : List (Nat × String)} {y : Nat} {s : String}
    (h : statusYearCount ps y s ≠ 0) :
    ps.any (fun p => p.2 = s) = true := by
  have hne : (ps.filter (fun p => p.1 = y ∧ p.2 = s)) ≠ [] := by
    intro h0
    exact h (by rw [statusYearCount, h0]; rfl)
  rcases List.exists_mem_of_ne_nil _ hne with ⟨p, hp⟩
  rcases List.mem_filter.mp hp with ⟨hmem, hpred⟩
  rw [List.any_eq_true]
  refine ⟨p, hmem, ?_⟩
  simp only [decide_eq_true_eq] at hpred ⊢
  exact hpred.2

theorem chargedOff_value_cases (ps : List (Nat × String)) (y : Nat) :
    (if ps.any (fun p => p.2 = "Charged Off") then
       (if statusYearCount ps y "Charged Off" = 0 then none
        else some (statusYearCount ps y "Charged Off"))
     else some 0)
    = (if statusYearCount ps y "Charged Off" ≠ 0 then some (statusYearCount ps y "Charged Off")
       else if ps.any (fun p => p.2 = "Charged Off") then none else some 0) := by
  by_cases hc : statusYearCount ps y "Charged Off" = 0
  · simp [hc]
  · simp [hc, any_of_statusYearCount_ne_zero hc]

/-! Claim theorems. -/

/-- C8: for every store state, the distinct-grade listing returns a list of
grade values with no duplicates that contains every grade value present in
the loans table. -/
theorem load_grades_nodup_and_complete (db : List LoanRow) :
    ((load_grades db).map Prod.snd).Nodup ∧
    ∀ r ∈ db, r.grade ∈ (load_grades db).map Prod.snd := by
  have hmap : (load_grades db).map Prod.snd = sqlDistinct (db.map (·.grade)) := by
    simp [load_grades, List.map_map, Function.comp_def]
  rw [hmap]
  exact ⟨nodup_sqlDistinct _, fun r hr =>
    (mem_sqlDistinct _ r.grade).mpr (List.mem_map_of_mem _ hr)⟩

/-- Witness for C8 at a concrete store. -/
theorem load_grades_nodup_and_complete_witness :
    ((load_grades exampleDb).map Prod.snd).Nodup ∧
    "B" ∈ (load_grades exampleDb).map Prod.snd := by
  have h := load_grades_nodup_and_complete exampleDb
  exact ⟨h.1, h.2 ⟨"B", 1000, 11, "Fully Paid", "car", "2013-06-01", "1999-05-01"⟩ (by decide)⟩

/-- C7: when no grade is selected, the update resolves the first grade
returned by the unfiltered distinct-grade query (in store order) and
produces the same five charts as selecting that grade. -/
theorem update_none_resolves_first_grade (db : List LoanRow) (g : String)
    (h : (sqlDistinct (db.map (·.grade))).head? = some g) :
    update_all_graphs db none = update_all_graphs db (some g) := by
  cases hd : sqlDistinct (db.map (·.grade)) with
  | nil => rw [hd] at h; cases h
  | cons g' gs =>
    rw [hd] at h
    obtain rfl : g' = g := by simpa using h
    simp [update_all_graphs, hd]

/-- Witness for C7 at a concrete store. -/
theorem update_none_resolves_first_grade_witness :
    update_all_graphs exampleDb none = update_all_graphs exampleDb (some "B") :=
  update_none_resolves_first_grade exampleDb "B" (by decide)

/-- C10: with no grade selected, the update only succeeds when the store
holds at least one grade; on an empty distinct-grade result the `.iloc[0]`
indexing fails (modelled as `none`) instead of producing charts. -/
theorem update_none_empty_store_unguarded (db : List LoanRow) :
    (sqlDistinct (db.map (·.grade)) = [] → update_all_graphs db none = none) ∧
    (sqlDistinct (db.map (·.grade)) ≠ [] → (update_all_graphs db none).isSome = true) := by
  constructor
  · intro h
    simp [update_all_graphs, h]
  · intro h
    cases hd : sqlDistinct (db.map (·.grade)) with
    | nil => exact absurd hd h
    | cons g gs => simp [update_all_graphs, hd]

/-- Witness for C10: the empty store fails, a populated store succeeds. -/
theorem update_none_empty_store_unguarded_witness :
    update_all_graphs [] none = none ∧
    (update_all_graphs exampleDb none).isSome = true :=
  ⟨(update_none_empty_store_unguarded []).1 (by decide),
   (update_none_empty_store_unguarded exampleDb).2 (by decide)⟩

/-- C5: for every grade present in the store, the update returns exactly
five chart specifications. -/
theorem update_returns_five_charts (db : List LoanRow) (g : String)
    (_h : g ∈ sqlDistinct (db.map (·.grade))) :
    ∃ f1 f2 f3 f4 f5, update_all_graphs db (some g) = some (f1, f2, f3, f4, f5) :=
  ⟨_, _, _, _, _, rfl⟩

/-- Witness for C5 at a concrete store and grade. -/
theorem update_returns_five_charts_witness :
    ∃ f1 f2 f3 f4 f5, update_all_graphs exampleDb (some "B") = some (f1, f2, f3, f4, f5) :=
  update_returns_five_charts exampleDb "B" (by decide)

/-- C6: a grade with zero matching rows yields five well-formed
empty/placeholder charts, never an error. -/
theorem empty_grade_yields_empty_charts (db : List LoanRow) (g : String)
    (h : fetchRows db g = []) :
    update_all_graphs db (some g) = some
      (Fig.histogram [] loan_status_colors ("Default Rate by Loan Amount for Grade " ++ g),
       Fig.densityHeatmap [] 30 30 ("Loan Amount vs. Interest Rate (Density) - Grade " ++ g),
       Fig.pie [] ("Loan Purpose Distribution for Grade " ++ g),
       Fig.emptyLine "Total Loan Issuance Over Time (No Data)",
       Fig.emptyLine "Loan Defaults vs. Borrower Credit History (No Data)") := by
  simp [update_all_graphs, makeFigs, figDefault, figLoanInt, figPurpose,
        figTimeSeries, figCreditHistory, issuePairs, creditPairs, h]

/-- Witness for C6: grade "Z" has no rows in the example store. -/
theorem empty_grade_yields_empty_charts_witness :
    update_all_graphs exampleDb (some "Z") = some
      (Fig.histogram [] loan_status_colors ("Default Rate by Loan Amount for Grade " ++ "Z"),
       Fig.densityHeatmap [] 30 30 ("Loan Amount vs. Interest Rate (Density) - Grade " ++ "Z"),
       Fig.pie [] ("Loan Purpose Distribution for Grade " ++ "Z"),
       Fig.emptyLine "Total Loan Issuance Over Time (No Data)",
       Fig.emptyLine "Loan Defaults vs. Borrower Credit History (No Data)") :=
  empty_grade_yields_empty_charts exampleDb "Z" (by decide)

/-- C9: a row whose `issue_d` (resp. `earliest_cr_line`) fails to parse is
dropped from the issuance (resp. credit-history) aggregation before
grouping, and the update cycle with a selected grade always succeeds. -/
theorem unparsable_dates_dropped (rows : List LoanRow) (r : LoanRow) :
    (parseDateYear r.issue_d = none →
       issuePairs (r :: rows) = issuePairs rows ∧
       figTimeSeries (r :: rows) = figTimeSeries rows) ∧
    (parseDateYear r.earliest_cr_line = none →
       creditPairs (r :: rows) = creditPairs rows ∧
       figCreditHistory (r :: rows) = figCreditHistory rows) ∧
    ∀ (db : List LoanRow) (g : String), (update_all_graphs db (some g)).isSome = true := by
  refine ⟨fun h => ?_, fun h => ?_, fun db g => rfl⟩
  · have hi : issuePairs (r :: rows) = issuePairs rows := by
      simp [issuePairs, List.filterMap_cons, h]
    exact ⟨hi, by simp only [figTimeSeries, hi]⟩
  · have hc : creditPairs (r :: rows) = creditPairs rows := by
      simp [creditPairs, List.filterMap_cons, h]
    exact ⟨hc, by simp only [figCreditHistory, hc]⟩

/-- Witness for C9 at the row with unparsable dates. -/
theorem unparsable_dates_dropped_witness :
    figTimeSeries [unparsableRow] = figTimeSeries [] ∧
    figCreditHistory [unparsableRow] = figCreditHistory [] ∧
    (update_all_graphs exampleDb (some "B")).isSome = true := by
  have h := unparsable_dates_dropped [] unparsableRow
  exact ⟨(h.1 (by decide)).2, (h.2.1 (by decide)).2, h.2.2 exampleDb "B"⟩

/-- C3: the issuance-over-time chart maps each year to the sum of
`loan_amnt` over exactly the fetched rows of the selected grade whose
`issue_d` parses to that year, and the spec's three-row example yields
exactly the points (2013, 1500) and (2014, 2000). -/
theorem issuance_points_year_sums :
    (∀ (db : List LoanRow) (g : String) (y : Nat) (v : Int),
      (y, v) ∈ yearSumPoints (issuePairs (fetchRows db g)) ↔
        ((∃ r ∈ fetchRows db g, parseDateYear r.issue_d = some y) ∧
         v = (((fetchRows db g).filter
                (fun r => parseDateYear r.issue_d = some y)).map (·.loan_amnt)).sum)) ∧
    figTimeSeries (fetchRows exampleDb "B")
      = Fig.line [(2013, 1500), (2014, 2000)] "Total Loan Issuance Over Time" := by
  constructor
  · intro db g y v
    simp only [yearSumPoints]
    rw [mem_map_pair, mem_sortDedup y, mem_issueYears, issuePairs_filter_year]
  · decide

/-- Witness for C3, reading one point off the example chart through the
general equivalence. -/
theorem issuance_points_year_sums_witness :
    (2013, (1500 : Int)) ∈ yearSumPoints (issuePairs (fetchRows exampleDb "B")) :=
  (issuance_points_year_sums.1 exampleDb "B" 2013 1500).mpr ⟨by decide, by decide⟩

/-- C4: the total over all years of the per-year amounts of the
issuance-over-time chart equals the total `loan_amnt` over all fetched rows
of the grade whose `issue_d` parses (year-grouping conserves the sum). -/
theorem issuance_total_conserved (db : List LoanRow) (g : String) :
    ((linePoints (figTimeSeries (fetchRows db g))).map Prod.snd).sum
      = (((fetchRows db g).filter
            (fun r => (parseDateYear r.issue_d).isSome)).map (·.loan_amnt)).sum := by
  rw [← issuePairs_snd_sum]
  simp only [figTimeSeries]
  by_cases h : (issuePairs (fetchRows db g)).isEmpty = true
  · rw [if_pos h, List.isEmpty_iff.mp h]
    rfl
  · rw [if_neg h]
    exact yearSumPoints_total _

/-- C1 counterexample: in a store where grade "B" has a charged-off row
with earliest_cr_line year 2000 and a fully-paid row with year 2001, the
credit-history chart reports a missing (NaN) value for 2001 — not the 0
the claim requires for a grouped year with zero charged-off rows. -/
theorem chargedOff_zero_year_reports_missing :
    figCreditHistory (fetchRows mixedStatusDb "B")
      = Fig.lineWithGaps [(2000, some 1), (2001, none)]
          "Loan Defaults vs. Borrower Credit History"
    ∧ chargedOffRowCount (fetchRows mixedStatusDb "B") 2001 = 0
    ∧ (none : Option Nat) ≠ some 0 :=
  ⟨by decide, by decide, by decide⟩

/-- C1 (amended): for each year appearing in the credit-history grouping,
the reported charged-off value is the count of charged-off rows of that
year when that count is positive; when the grade has no charged-off row
with a parseable date at all, every grouped year reports 0; otherwise a
year with zero charged-off rows reports a missing (NaN) value. -/
theorem chargedOff_value_per_year (db : List LoanRow) (g : String) (y : Nat) (v : Option Nat) :
    (y, v) ∈ chargedOffSeries (creditPairs (fetchRows db g)) ↔
      ((∃ r ∈ fetchRows db g, parseDateYear r.earliest_cr_line = some y) ∧
       v = (if chargedOffRowCount (fetchRows db g) y ≠ 0 then
              some (chargedOffRowCount (fetchRows db g) y)
            else if (fetchRows db g).any (fun r =>
                     (parseDateYear r.earliest_cr_line).isSome
                       && r.loan_status = "Charged Off") then none
            else some 0)) := by
  simp only [chargedOffSeries]
  rw [mem_map_pair, mem_sortDedup y, mem_creditYears, chargedOff_value_cases,
    statusYearCount_rows, any_creditPairs_status, chargedOffRowCount]

/-- Witness for C1 (amended) at a concrete store and year. -/
theorem chargedOff_value_per_year_witness :
    (2000, some 1) ∈ chargedOffSeries (creditPairs (fetchRows mixedStatusDb "B")) :=
  (chargedOff_value_per_year mixedStatusDb "B" 2000 (some 1)).mpr ⟨by decide, by decide⟩

/-- C2: the source interpolates the raw grade into the SQL text, so a grade
containing a quote changes the structure of the executed query: the built
query for `injectionGrade` is not an equality filter on grade for any value
(`queryGradeLiteral` rejects it), while for a quote-free grade the built
query is the equality filter on exactly that grade. -/
theorem grade_query_interpolation_not_parameterized :
    queryGradeLiteral "loan_amnt, loan_status"
        (buildGradeQuery "loan_amnt, loan_status" injectionGrade) = none
    ∧ queryGradeLiteral "loan_amnt, loan_status"
        (buildGradeQuery "loan_amnt, loan_status" "B") = some "B"
    ∧ injectionGrade ≠ "B" :=
  ⟨by decide, by decide, by decide⟩

end Dashapp
